import Mathlib

/-!
Verification of the tsrpc `BaseConnection` core (request/response correlation,
abort handling, disconnect semantics, heartbeat, transport pipeline guards).

The definitions below are a shallow embedding of the TypeScript sources:
  - `src/packages/tsrpc-base/src/base/BaseConnection.ts` (the mature class), and
  - `src/unnamed/part_000` (a legacy variant of the same class, names prefixed
    `legacy` here when the two differ).
Callbacks (`onReturn`, `onAbort`) are modelled by presence flags on the pending
item; invoking a callback is recorded as an explicit trace event, and the body
of the `onReturn` closure installed by `_waitApiReturn` (which deletes the item
from `_pendingCallApis` and resolves the waiting promise) is inlined at each
invocation site, exactly as the source runs it.
-/

namespace Tsrpc

/-- Connection lifecycle status (`enum ConnectionStatus`, BaseConnection.ts 1290-1295). -/
inductive ConnectionStatus
  | Connecting
  | Connected
  | Disconnecting
  | Disconnected
deriving DecidableEq, Repr

/-- String value of each status (the enum members are string-valued in the source). -/
def ConnectionStatus.toStr : ConnectionStatus → String
  | .Connecting => "Connecting"
  | .Connected => "Connected"
  | .Disconnecting => "Disconnecting"
  | .Disconnected => "Disconnected"

/-- TsrpcErrorType (proto/TransportDataSchema). -/
inductive TsrpcErrorType
  | ApiError
  | NetworkError
  | ServerError
  | ClientError
  | RemoteError
  | LocalError
deriving DecidableEq, Repr

/-- TsrpcError: message, type, optional short code. -/
structure TsrpcError where
  message : String
  type : TsrpcErrorType
  code : Option String := none
deriving DecidableEq, Repr

/-- ProtoInfo: schema fingerprint exchanged on first contact. -/
structure ProtoInfo where
  md5 : String
  lastModified : Nat
  tsrpc : String
  node : Option String := none
deriving DecidableEq, Repr

/-- ApiReturn: either a success carrying the response body or a TsrpcError. -/
inductive ApiReturn (β : Type)
  | succ (res : β)
  | err (e : TsrpcError)
deriving DecidableEq, Repr

/-- OpResultVoid: either a success or a failure with an error message. -/
inductive OpResultVoid
  | succ
  | fail (errMsg : String)
deriving DecidableEq, Repr

/-- OpResult carrying a payload on success. -/
inductive OpResult (α : Type)
  | succ (res : α)
  | fail (errMsg : String)
deriving DecidableEq, Repr

/-- TransportData: the wire-level tagged union (TransportData.ts); the opaque
`custom` passthrough variant is not needed by any claim and is omitted. Bodies
are kept abstract in the type parameter `β`. -/
inductive TransportData (β : Type)
  | req (serviceName : String) (sn : Nat) (body : β) (protoInfo : Option ProtoInfo)
  | res (sn : Nat) (body : β) (serviceName : Option String) (protoInfo : Option ProtoInfo)
  | err (sn : Nat) (e : TsrpcError) (protoInfo : Option ProtoInfo)
  | msg (serviceName : String) (body : β)
  | heartbeat (sn : Nat) (isReply : Bool)
deriving DecidableEq, Repr

/-- Sequence number of a TransportData, when it has one (`msg` has none). -/
def TransportData.snOf {β : Type} : TransportData β → Option Nat
  | .req _ sn _ _ => some sn
  | .res sn _ _ _ => some sn
  | .err sn _ _ => some sn
  | .msg _ _ => none
  | .heartbeat sn _ => some sn

/-- The narrowing `TransportData & \x7b type: 'res' | 'err' \x7d` that
`_recvApiReturn` receives. -/
inductive ApiReturnData (β : Type)
  | res (sn : Nat) (body : β) (serviceName : Option String) (protoInfo : Option ProtoInfo)
  | err (sn : Nat) (e : TsrpcError) (protoInfo : Option ProtoInfo)
deriving DecidableEq, Repr

/-- Sequence number of an inbound `res`/`err`. -/
def ApiReturnData.sn {β : Type} : ApiReturnData β → Nat
  | .res sn _ _ _ => sn
  | .err sn _ _ => sn

/-- The guard `transportData.type === 'err' && transportData.sn === 0`
(BaseConnection.ts 390). -/
def ApiReturnData.isErrSn0 {β : Type} : ApiReturnData β → Bool
  | .err 0 _ _ => true
  | _ => false

/-- The ApiReturn built from an inbound `res`/`err` (BaseConnection.ts 405-408). -/
def ApiReturnData.toApiReturn {β : Type} : ApiReturnData β → ApiReturn β
  | .res _ body _ _ => .succ body
  | .err _ e _ => .err e

/-- PendingCallApiItem (BaseConnection.ts 1259-1268). The two callbacks are
modelled as presence flags: `hasOnReturn` is true when `_waitApiReturn` has
installed its resolver (the closure at lines 375-382), `hasOnAbort` when an
`onAbort` hook is set. -/
structure PendingCallApiItem (β : Type) where
  sn : Nat
  apiName : String
  req : β
  isAborted : Bool := false
  abortKey : Option String := none
  hasOnAbort : Bool := false
  hasOnReturn : Bool := false
deriving DecidableEq, Repr

/-- The pending-call map `_pendingCallApis : Map<number, PendingCallApiItem>`,
as an insertion-ordered list keyed by `sn`. -/
abbrev PendingMap (β : Type) := List (PendingCallApiItem β)

/-- Map.get(sn). -/
def mapGet {β : Type} (m : PendingMap β) (sn : Nat) : Option (PendingCallApiItem β) :=
  m.find? (fun it => it.sn == sn)

/-- Map.delete(sn). -/
def mapDelete {β : Type} (m : PendingMap β) (sn : Nat) : PendingMap β :=
  m.filter (fun it => it.sn != sn)

/-- Map.set(sn, item): replace in place when the key exists, else append. -/
def mapSet {β : Type} (m : PendingMap β) (item : PendingCallApiItem β) : PendingMap β :=
  if (mapGet m item.sn).isSome then
    m.map (fun it => if it.sn == item.sn then item else it)
  else m ++ [item]

/-- Keys of the pending map, in insertion order. -/
def mapKeys {β : Type} (m : PendingMap β) : List Nat := m.map (·.sn)

/-- Observable happenings of the pending-call engine, recorded as a trace. -/
inductive TraceEvent (β : Type)
  | invokeOnReturn (sn : Nat) (ret : ApiReturn β)
  | aborted (sn : Nat)
  | invokeOnAbort (sn : Nat)
  | logRemoteErr (d : ApiReturnData β)
  | stopHeartbeat
  | doDisconnect (isManual : Bool) (reason : Option String)
  | postDisconnectFlow (isManual : Bool) (reason : Option String)
deriving DecidableEq, Repr

/-- Embedding of `_recvApiReturn` (BaseConnection.ts 386-411): an `err` with
`sn == 0` is only logged as a remote decode failure; otherwise the pending item
is located by `sn`; a missing or aborted item drops the data; else
`item.onReturn?.(apiReturn)` runs, and invoking `onReturn` runs the
`_waitApiReturn` closure, which deletes the item and resolves with the value. -/
def recvApiReturn {β : Type} (m : PendingMap β) (d : ApiReturnData β) :
    PendingMap β × List (TraceEvent β) :=
  if d.isErrSn0 then (m, [.logRemoteErr d])
  else
    match mapGet m d.sn with
    | none => (m, [])
    | some item =>
      if item.isAborted then (m, [])
      else if item.hasOnReturn then
        (mapDelete m item.sn, [.invokeOnReturn item.sn d.toApiReturn])
      else (m, [])

/-- Embedding of `abort(sn)` (BaseConnection.ts 417-438): remove the item from
the map, clear `onReturn`, set `isAborted`, fire `onAbort` when present. -/
def abort {β : Type} (m : PendingMap β) (sn : Nat) : PendingMap β × List (TraceEvent β) :=
  match mapGet m sn with
  | none => (m, [])
  | some item =>
    (mapDelete m sn,
      .aborted sn :: (if item.hasOnAbort then [.invokeOnAbort sn] else []))

/-- Operations that touch the pending map: an inbound `res`/`err` dispatched to
`_recvApiReturn`, or a call of `abort(sn)`. -/
inductive PendingOp (β : Type)
  | recvReturn (d : ApiReturnData β)
  | abortSn (sn : Nat)
deriving DecidableEq, Repr

/-- Run one pending-map operation. -/
def runPendingOp {β : Type} (m : PendingMap β) : PendingOp β → PendingMap β × List (TraceEvent β)
  | .recvReturn d => recvApiReturn m d
  | .abortSn sn => abort m sn

/-- Run a sequence of pending-map operations, concatenating the traces. -/
def runPendingOps {β : Type} (m : PendingMap β) :
    List (PendingOp β) → PendingMap β × List (TraceEvent β)
  | [] => (m, [])
  | op :: rest =>
    let r1 := runPendingOp m op
    let r2 := runPendingOps r1.1 rest
    (r2.1, r1.2 ++ r2.2)

/-- Event is an `onReturn` invocation for the given sn. -/
def isInvokeFor {β : Type} (sn : Nat) : TraceEvent β → Bool
  | .invokeOnReturn s _ => s == sn
  | _ => false

/-- Event is the abort of the given sn. -/
def isAbortedFor {β : Type} (sn : Nat) : TraceEvent β → Bool
  | .aborted s => s == sn
  | _ => false

/-- Number of `onReturn` invocations for the given sn in a trace. -/
def invokeCount {β : Type} (sn : Nat) (tr : List (TraceEvent β)) : Nat :=
  (tr.filter (isInvokeFor sn)).length

/-- Trace contains no `onReturn` invocation for the given sn. -/
def invokeFree {β : Type} (sn : Nat) (tr : List (TraceEvent β)) : Bool :=
  tr.all (fun e => !(isInvokeFor sn e))

/-- Trace contains no abort of the given sn. -/
def abortFree {β : Type} (sn : Nat) (tr : List (TraceEvent β)) : Bool :=
  tr.all (fun e => !(isAbortedFor sn e))

/-- Trace contains no `onReturn` invocation at all. -/
def noInvokes {β : Type} (tr : List (TraceEvent β)) : Bool :=
  tr.all (fun e => match e with | .invokeOnReturn _ _ => false | _ => true)

/-- After any abort of `sn` in the trace, no later event invokes `onReturn`
for `sn`. -/
def noInvokeAfterAborted {β : Type} (sn : Nat) : List (TraceEvent β) → Bool
  | [] => true
  | e :: rest =>
    (if isAbortedFor sn e then invokeFree sn rest else true) && noInvokeAfterAborted sn rest

/-- The `onReturn` values delivered for the given sn, in order. -/
def returnsFor {β : Type} (sn : Nat) (tr : List (TraceEvent β)) : List (ApiReturn β) :=
  tr.filterMap (fun e =>
    match e with
    | .invokeOnReturn s ret => if s == sn then some ret else none
    | _ => none)

/-! Helper lemmas about the pending map. -/

theorem mapGet_eq_none_of_not_mem_keys {β : Type} {m : PendingMap β} {sn : Nat}
    (h : sn ∉ mapKeys m) : mapGet m sn = none := by
  rw [mapGet, List.find?_eq_none]
  intro it hit hbeq
  apply h
  have hsn : it.sn = sn := by simpa using hbeq
  exact hsn ▸ List.mem_map_of_mem (·.sn) hit

theorem sn_of_mapGet_some {β : Type} {m : PendingMap β} {sn : Nat}
    {item : PendingCallApiItem β} (h : mapGet m sn = some item) : item.sn = sn := by
  have := List.find?_some h
  simpa using this

theorem not_mem_keys_mapDelete {β : Type} (m : PendingMap β) (sn : Nat) :
    sn ∉ mapKeys (mapDelete m sn) := by
  simp only [mapKeys, mapDelete, List.mem_map]
  rintro ⟨x, hx, hsn⟩
  have := List.of_mem_filter hx
  simp [hsn] at this

theorem keys_mapDelete_subset {β : Type} (m : PendingMap β) (sn : Nat) :
    mapKeys (mapDelete m sn) ⊆ mapKeys m :=
  List.map_subset _ (fun _ hx => List.mem_of_mem_filter hx)

/-! Per-operation lemmas. -/

theorem runPendingOp_keys_subset {β : Type} (m : PendingMap β) (op : PendingOp β) :
    mapKeys (runPendingOp m op).1 ⊆ mapKeys m := by
  cases op with
  | recvReturn d =>
    dsimp [runPendingOp, recvApiReturn]
    by_cases h0 : d.isErrSn0
    · simp [h0]
    · simp only [h0, if_false]
      cases hg : mapGet m d.sn with
      | none => simp
      | some item =>
        by_cases hab : item.isAborted
        · simp [hab]
        · by_cases hr : item.hasOnReturn
          · simp [hab, hr, keys_mapDelete_subset]
          · simp [hab, hr]
  | abortSn sn =>
    dsimp [runPendingOp, abort]
    cases hg : mapGet m sn with
    | none => simp
    | some item => simp [keys_mapDelete_subset]

theorem runPendingOp_absent {β : Type} {m : PendingMap β} {sn : Nat}
    (h : sn ∉ mapKeys m) (op : PendingOp β) :
    invokeFree sn (runPendingOp m op).2 = true ∧
    abortFree sn (runPendingOp m op).2 = true ∧
    sn ∉ mapKeys (runPendingOp m op).1 := by
  cases op with
  | recvReturn d =>
    dsimp [runPendingOp, recvApiReturn]
    by_cases h0 : d.isErrSn0
    · simp [h0, invokeFree, abortFree, isInvokeFor, isAbortedFor, h]
    · simp only [h0, if_false]
      cases hg : mapGet m d.sn with
      | none => simp [invokeFree, abortFree, h]
      | some item =>
        have hisn : item.sn = d.sn := sn_of_mapGet_some hg
        have hdsn : d.sn ≠ sn := by
          intro he
          exact h (he ▸ (hisn ▸ List.mem_map_of_mem (·.sn) (List.mem_of_find?_eq_some hg)))
        by_cases hab : item.isAborted
        · simp [hab, invokeFree, abortFree, h]
        · by_cases hr : item.hasOnReturn
          · refine ⟨?_, ?_, ?_⟩
            · simp [hab, hr, invokeFree, isInvokeFor, hisn, hdsn]
            · simp [hab, hr, abortFree, isAbortedFor]
            · simp only [hab, hr, if_false, if_true, Bool.false_eq_true]
              exact fun hc => h (keys_mapDelete_subset m item.sn hc)
          · simp [hab, hr, invokeFree, abortFree, h]
  | abortSn s =>
    dsimp [runPendingOp, abort]
    cases hg : mapGet m s with
    | none => simp [invokeFree, abortFree, h]
    | some item =>
      have hssn : s ≠ sn := by
        intro he
        exact h (he ▸ (sn_of_mapGet_some hg ▸ List.mem_map_of_mem (·.sn)
          (List.mem_of_find?_eq_some hg)))
      refine ⟨?_, ?_, ?_⟩
      · by_cases hb : item.hasOnAbort <;>
          simp [hb, invokeFree, isInvokeFor]
      · by_cases hb : item.hasOnAbort <;>
          simp [hb, abortFree, isAbortedFor, hssn]
      · exact fun hc => h (keys_mapDelete_subset m s hc)

theorem runPendingOp_invokeCount_le_one {β : Type} (m : PendingMap β) (op : PendingOp β) (sn : Nat) :
    invokeCount sn (runPendingOp m op).2 ≤ 1 := by
  cases op with
  | recvReturn d =>
    dsimp [runPendingOp, recvApiReturn]
    by_cases h0 : d.isErrSn0
    · simp [h0, invokeCount, isInvokeFor]
    · simp only [h0, if_false]
      cases hg : mapGet m d.sn with
      | none => simp [invokeCount]
      | some item =>
        by_cases hab : item.isAborted
        · simp [hab, invokeCount]
        · by_cases hr : item.hasOnReturn
          · by_cases he : isInvokeFor sn (TraceEvent.invokeOnReturn item.sn d.toApiReturn) <;>
              simp [hab, hr, invokeCount, he]
          · simp [hab, hr, invokeCount]
  | abortSn s =>
    dsimp [runPendingOp, abort]
    cases hg : mapGet m s with
    | none => simp [invokeCount]
    | some item =>
      by_cases hb : item.hasOnAbort <;>
        simp [hb, invokeCount, isInvokeFor]

theorem runPendingOp_invoke_removes {β : Type} {m : PendingMap β} {sn : Nat}
    (op : PendingOp β) (h : invokeFree sn (runPendingOp m op).2 = false) :
    sn ∉ mapKeys (runPendingOp m op).1 := by
  cases op with
  | recvReturn d =>
    dsimp [runPendingOp, recvApiReturn] at h ⊢
    by_cases h0 : d.isErrSn0
    · simp [h0, invokeFree, isInvokeFor] at h
    · simp only [h0, if_false] at h ⊢
      cases hg : mapGet m d.sn with
      | none => simp [hg, invokeFree] at h
      | some item =>
        simp only [hg] at h ⊢
        by_cases hab : item.isAborted
        · simp [hab, invokeFree] at h
        · by_cases hr : item.hasOnReturn
          · simp only [hab, hr, if_false, if_true, Bool.false_eq_true] at h ⊢
            have hsn : item.sn = sn := by
              simp [invokeFree, isInvokeFor] at h
              simpa using h
            exact hsn ▸ not_mem_keys_mapDelete m item.sn
          · simp [hab, hr, invokeFree] at h
  | abortSn s =>
    dsimp [runPendingOp, abort] at h ⊢
    cases hg : mapGet m s with
    | none => simp [hg, invokeFree] at h
    | some item =>
      simp only [hg] at h ⊢
      by_cases hb : item.hasOnAbort <;>
        simp [hb, invokeFree, isInvokeFor] at h

theorem runPendingOp_abort_removes {β : Type} {m : PendingMap β} {sn : Nat}
    (op : PendingOp β) (h : abortFree sn (runPendingOp m op).2 = false) :
    sn ∉ mapKeys (runPendingOp m op).1 := by
  cases op with
  | recvReturn d =>
    dsimp [runPendingOp, recvApiReturn] at h ⊢
    by_cases h0 : d.isErrSn0
    · simp [h0, abortFree, isAbortedFor] at h
    · simp only [h0, if_false] at h ⊢
      cases hg : mapGet m d.sn with
      | none => simp [hg, abortFree] at h
      | some item =>
        simp only [hg] at h ⊢
        by_cases hab : item.isAborted
        · simp [hab, abortFree] at h
        · by_cases hr : item.hasOnReturn
          · simp [hab, hr, abortFree, isAbortedFor] at h
          · simp [hab, hr, abortFree] at h
  | abortSn s =>
    dsimp [runPendingOp, abort] at h ⊢
    cases hg : mapGet m s with
    | none => simp [hg, abortFree] at h
    | some item =>
      simp only [hg] at h ⊢
      have hsn : s = sn := by
        by_cases hb : item.hasOnAbort <;>
          simp [hb, abortFree, isAbortedFor] at h <;>
          simpa using h
      exact hsn ▸ not_mem_keys_mapDelete m s

theorem runPendingOp_trace_ok {β : Type} (m : PendingMap β) (op : PendingOp β) (sn : Nat) :
    noInvokeAfterAborted sn (runPendingOp m op).2 = true := by
  cases op with
  | recvReturn d =>
    dsimp [runPendingOp, recvApiReturn]
    by_cases h0 : d.isErrSn0
    · simp [h0, noInvokeAfterAborted, isAbortedFor, invokeFree]
    · simp only [h0, if_false]
      cases hg : mapGet m d.sn with
      | none => simp [noInvokeAfterAborted]
      | some item =>
        by_cases hab : item.isAborted
        · simp [hab, noInvokeAfterAborted]
        · by_cases hr : item.hasOnReturn
          · simp [hab, hr, noInvokeAfterAborted, isAbortedFor, invokeFree]
          · simp [hab, hr, noInvokeAfterAborted]
  | abortSn s =>
    dsimp [runPendingOp, abort]
    cases hg : mapGet m s with
    | none => simp [noInvokeAfterAborted]
    | some item =>
      by_cases hb : item.hasOnAbort <;>
        simp [hb, noInvokeAfterAborted, isAbortedFor, invokeFree, isInvokeFor]

/-! Trace-combination lemmas. -/

theorem invokeFree_append {β : Type} (sn : Nat) (t1 t2 : List (TraceEvent β)) :
    invokeFree sn (t1 ++ t2) = (invokeFree sn t1 && invokeFree sn t2) := by
  simp [invokeFree, List.all_append]

theorem abortFree_append {β : Type} (sn : Nat) (t1 t2 : List (TraceEvent β)) :
    abortFree sn (t1 ++ t2) = (abortFree sn t1 && abortFree sn t2) := by
  simp [abortFree, List.all_append]

theorem invokeCount_append {β : Type} (sn : Nat) (t1 t2 : List (TraceEvent β)) :
    invokeCount sn (t1 ++ t2) = invokeCount sn t1 + invokeCount sn t2 := by
  simp [invokeCount, List.filter_append]

theorem invokeCount_eq_zero_of_invokeFree {β : Type} {sn : Nat} {tr : List (TraceEvent β)}
    (h : invokeFree sn tr = true) : invokeCount sn tr = 0 := by
  simp only [invokeFree, List.all_eq_true, Bool.not_eq_true'] at h
  simp only [invokeCount, List.length_eq_zero]
  exact List.filter_eq_nil_iff.2 (fun e he => by simp [h e he])

theorem noInvokeAfterAborted_append {β : Type} {sn : Nat} {t1 t2 : List (TraceEvent β)}
    (h1 : noInvokeAfterAborted sn t1 = true) (h2 : noInvokeAfterAborted sn t2 = true)
    (h3 : abortFree sn t1 = false → invokeFree sn t2 = true) :
    noInvokeAfterAborted sn (t1 ++ t2) = true := by
  induction t1 with
  | nil => simpa using h2
  | cons e t1 ih =>
    simp only [noInvokeAfterAborted, Bool.and_eq_true] at h1
    rw [List.cons_append]
    simp only [noInvokeAfterAborted, Bool.and_eq_true, List.append_eq]
    constructor
    · by_cases habt : isAbortedFor sn e
      · simp only [habt, if_true]
        rw [invokeFree_append]
        have hf1 : invokeFree sn t1 = true := by simpa [habt] using h1.1
        have hf2 : invokeFree sn t2 = true := by
          apply h3
          simp [abortFree, habt]
        simp [hf1, hf2]
      · simp [habt]
    · apply ih h1.2
      intro hfa
      apply h3
      rw [← List.singleton_append, abortFree_append, hfa, Bool.and_false]

/-! Whole-run lemmas. -/

theorem runPendingOps_absent {β : Type} {m : PendingMap β} {sn : Nat}
    (h : sn ∉ mapKeys m) (ops : List (PendingOp β)) :
    invokeFree sn (runPendingOps m ops).2 = true ∧
    abortFree sn (runPendingOps m ops).2 = true := by
  induction ops generalizing m with
  | nil => simp [runPendingOps, invokeFree, abortFree]
  | cons op rest ih =>
    obtain ⟨hi, ha, hk⟩ := runPendingOp_absent h op
    obtain ⟨hi2, ha2⟩ := ih hk
    dsimp [runPendingOps]
    rw [invokeFree_append, abortFree_append]
    simp [hi, ha, hi2, ha2]

theorem runPendingOps_invokeCount_le_one {β : Type} (m : PendingMap β)
    (ops : List (PendingOp β)) (sn : Nat) :
    invokeCount sn (runPendingOps m ops).2 ≤ 1 := by
  induction ops generalizing m with
  | nil => simp [runPendingOps, invokeCount]
  | cons op rest ih =>
    dsimp [runPendingOps]
    rw [invokeCount_append]
    by_cases hf : invokeFree sn (runPendingOp m op).2
    · have h0 : invokeCount sn (runPendingOp m op).2 = 0 :=
        invokeCount_eq_zero_of_invokeFree hf
      simpa [h0] using ih (runPendingOp m op).1
    · have hk := runPendingOp_invoke_removes op (by simpa using hf)
      have h2 := (runPendingOps_absent hk rest).1
      have h0 : invokeCount sn (runPendingOps (runPendingOp m op).1 rest).2 = 0 :=
        invokeCount_eq_zero_of_invokeFree h2
      have h1 := runPendingOp_invokeCount_le_one m op sn
      omega

theorem runPendingOps_noInvokeAfterAborted {β : Type} (m : PendingMap β)
    (ops : List (PendingOp β)) (sn : Nat) :
    noInvokeAfterAborted sn (runPendingOps m ops).2 = true := by
  induction ops generalizing m with
  | nil => simp [runPendingOps, noInvokeAfterAborted]
  | cons op rest ih =>
    dsimp [runPendingOps]
    apply noInvokeAfterAborted_append (runPendingOp_trace_ok m op sn) (ih _)
    intro hab
    have hk := runPendingOp_abort_removes op hab
    exact (runPendingOps_absent hk rest).1

/-! Timeout handling of `_waitApiReturn` (claim C5). -/

/-- Effective per-call timeout: `options?.timeout ?? this.options.callApiTimeout`
(BaseConnection.ts 330). -/
def effectiveTimeout (optionsTimeout : Option Nat) (callApiTimeout : Nat) : Nat :=
  optionsTimeout.getD callApiTimeout

/-- TIMEOUT error produced by the timer of `_waitApiReturn` (BaseConnection.ts 364-370). -/
def requestTimeoutError : TsrpcError :=
  { message := "Request Timeout", type := .NetworkError, code := some "TIMEOUT" }

/-- The two ways the promise built by `_waitApiReturn` can resolve. -/
inductive WaitHappening (β : Type)
  | timerFires
  | onReturnInvoked (ret : ApiReturn β)
deriving DecidableEq, Repr

/-- Embedding of `_waitApiReturn` (BaseConnection.ts 352-384): `if (timeout)` arms
the timer only for a truthy (non-zero) timeout; a firing timer deletes the pending
item and resolves with the TIMEOUT error; an invoked `onReturn` clears the timer,
deletes the pending item and resolves with the delivered value. `none` means the
happening cannot occur (an unarmed timer never fires). -/
def waitApiReturnResolve {β : Type} (m : PendingMap β) (item : PendingCallApiItem β)
    (timeout : Nat) : WaitHappening β → Option (PendingMap β × ApiReturn β)
  | .timerFires =>
    if timeout ≠ 0 then some (mapDelete m item.sn, .err requestTimeoutError) else none
  | .onReturnInvoked ret => some (mapDelete m item.sn, ret)

/-! Claim theorems on the pending-call engine. -/

/-- Claim C4: for every PendingCall p, `p.onReturn` is invoked at most once over
any sequence of inbound `res`/`err` dispatches and `abort` calls, and never after
`abort(p.sn)` has run; moreover a `res`/`err` arriving for an sn that is absent
from the pending map, or whose item is aborted, is dropped without invoking any
`onReturn` and without changing the pending map. -/
theorem c4_onReturn_at_most_once_never_after_abort {β : Type}
    (m : PendingMap β) (ops : List (PendingOp β)) (sn : Nat) :
    invokeCount sn (runPendingOps m ops).2 ≤ 1 ∧
    noInvokeAfterAborted sn (runPendingOps m ops).2 = true ∧
    (∀ d : ApiReturnData β, mapGet m d.sn = none →
      (recvApiReturn m d).1 = m ∧ noInvokes (recvApiReturn m d).2 = true) ∧
    (∀ d : ApiReturnData β, ∀ item, mapGet m d.sn = some item → item.isAborted = true →
      (recvApiReturn m d).1 = m ∧ noInvokes (recvApiReturn m d).2 = true) := by
  refine ⟨runPendingOps_invokeCount_le_one m ops sn,
    runPendingOps_noInvokeAfterAborted m ops sn, ?_, ?_⟩
  · intro d hget
    by_cases h0 : d.isErrSn0
    · simp [recvApiReturn, h0, noInvokes]
    · simp [recvApiReturn, h0, hget, noInvokes]
  · intro d item hget hab
    by_cases h0 : d.isErrSn0
    · simp [recvApiReturn, h0, noInvokes]
    · simp [recvApiReturn, h0, hget, hab, noInvokes]

/-- Witness for C4: a concrete pending item aborted before its reply arrives, a
reply for an unknown sn, and a reply for an aborted-but-present item. -/
theorem c4_onReturn_at_most_once_never_after_abort_witness :
    invokeCount 1 (runPendingOps ([⟨1, "Echo", (), false, none, false, true⟩] : PendingMap Unit)
      [.abortSn 1, .recvReturn (.res 1 () none none)]).2 ≤ 1 ∧
    noInvokeAfterAborted 1 (runPendingOps ([⟨1, "Echo", (), false, none, false, true⟩] : PendingMap Unit)
      [.abortSn 1, .recvReturn (.res 1 () none none)]).2 = true ∧
    (recvApiReturn ([⟨1, "Echo", (), false, none, false, true⟩] : PendingMap Unit)
      (.res 2 () none none)).1 = [⟨1, "Echo", (), false, none, false, true⟩] ∧
    noInvokes (recvApiReturn ([⟨1, "Echo", (), false, none, false, true⟩] : PendingMap Unit)
      (.res 2 () none none)).2 = true ∧
    (recvApiReturn ([⟨5, "Echo", (), true, none, false, true⟩] : PendingMap Unit)
      (.err 5 ⟨"boom", .ApiError, none⟩ none)).1 = [⟨5, "Echo", (), true, none, false, true⟩] ∧
    noInvokes (recvApiReturn ([⟨5, "Echo", (), true, none, false, true⟩] : PendingMap Unit)
      (.err 5 ⟨"boom", .ApiError, none⟩ none)).2 = true := by
  have h1 := c4_onReturn_at_most_once_never_after_abort
    ([⟨1, "Echo", (), false, none, false, true⟩] : PendingMap Unit)
    [.abortSn 1, .recvReturn (.res 1 () none none)] 1
  have h2 := c4_onReturn_at_most_once_never_after_abort
    ([⟨5, "Echo", (), true, none, false, true⟩] : PendingMap Unit) [] 5
  have hd1 := h1.2.2.1 (.res 2 () none none) (by decide)
  have hd2 := h2.2.2.2 (.err 5 ⟨"boom", .ApiError, none⟩ none)
    ⟨5, "Echo", (), true, none, false, true⟩ (by decide) rfl
  exact ⟨h1.1, h1.2.1, hd1.1, hd1.2, hd2.1, hd2.2⟩

/-- Claim C6: an inbound `err` transport data with sn = 0 is treated only as a
global peer-side decode-failure log: no `onReturn` is invoked and the pending
map is unchanged. -/
theorem c6_err_sn0_only_logged {β : Type} (m : PendingMap β) (e : TsrpcError)
    (protoInfo : Option ProtoInfo) :
    recvApiReturn m (.err 0 e protoInfo) = (m, [.logRemoteErr (.err 0 e protoInfo)]) ∧
    noInvokes (recvApiReturn m (.err 0 e protoInfo)).2 = true := by
  constructor
  · simp [recvApiReturn, ApiReturnData.isErrSn0]
  · simp [recvApiReturn, ApiReturnData.isErrSn0, noInvokes]

/-- Claim C5: with a non-zero effective timeout (`options.timeout ??
callApiTimeout`; 0 disables the timer), the firing timer resolves the call with
the NetworkError/TIMEOUT "Request Timeout" return and removes the PendingCall,
so a later-arriving reply for that sn is dropped without invoking `onReturn`. -/
theorem c5_timeout_resolves_and_drops_late_reply {β : Type} (m : PendingMap β)
    (item : PendingCallApiItem β) (optionsTimeout : Option Nat) (callApiTimeout : Nat)
    (d : ApiReturnData β)
    (ht : effectiveTimeout optionsTimeout callApiTimeout ≠ 0)
    (hsn : d.sn = item.sn) :
    waitApiReturnResolve m item (effectiveTimeout optionsTimeout callApiTimeout) .timerFires =
      some (mapDelete m item.sn,
        .err { message := "Request Timeout", type := .NetworkError, code := some "TIMEOUT" }) ∧
    (recvApiReturn (mapDelete m item.sn) d).1 = mapDelete m item.sn ∧
    noInvokes (recvApiReturn (mapDelete m item.sn) d).2 = true ∧
    waitApiReturnResolve m item 0 .timerFires = none ∧
    effectiveTimeout none callApiTimeout = callApiTimeout ∧
    (∀ t, effectiveTimeout (some t) callApiTimeout = t) := by
  have hget : mapGet (mapDelete m item.sn) d.sn = none := by
    rw [hsn]
    exact mapGet_eq_none_of_not_mem_keys (not_mem_keys_mapDelete m item.sn)
  refine ⟨by simp [waitApiReturnResolve, ht, requestTimeoutError], ?_, ?_,
    by simp [waitApiReturnResolve], by simp [effectiveTimeout],
    fun t => by simp [effectiveTimeout]⟩
  · by_cases h0 : d.isErrSn0
    · simp [recvApiReturn, h0]
    · simp [recvApiReturn, h0, hget]
  · by_cases h0 : d.isErrSn0
    · simp [recvApiReturn, h0, noInvokes]
    · simp [recvApiReturn, h0, hget, noInvokes]

/-- Witness for C5: `timeout: 100` with the default `callApiTimeout = 15000` on a
concrete pending call with sn 3; its late reply is dropped. -/
theorem c5_timeout_resolves_and_drops_late_reply_witness :
    waitApiReturnResolve ([⟨3, "Echo", (), false, none, false, true⟩] : PendingMap Unit)
      ⟨3, "Echo", (), false, none, false, true⟩ (effectiveTimeout (some 100) 15000) .timerFires =
      some (mapDelete ([⟨3, "Echo", (), false, none, false, true⟩] : PendingMap Unit) 3,
        .err { message := "Request Timeout", type := .NetworkError, code := some "TIMEOUT" }) ∧
    noInvokes (recvApiReturn
      (mapDelete ([⟨3, "Echo", (), false, none, false, true⟩] : PendingMap Unit) 3)
      (.res 3 () none none)).2 = true := by
  have h := c5_timeout_resolves_and_drops_late_reply
    ([⟨3, "Echo", (), false, none, false, true⟩] : PendingMap Unit)
    ⟨3, "Echo", (), false, none, false, true⟩ (some 100) 15000
    (.res 3 () none none) (by decide) rfl
  exact ⟨h.1, h.2.2.1⟩

/-! Counter, heartbeat state and the connection state used by `_disconnect`. -/

/-- Modelled from the spec: the `Counter` class (its source file is not under
src/; only its call sites are). Spec 4.1: "Returns successive positive integers
starting at 1. `getNext()` increments and returns; `getNext(peek=true)` returns
without advancing. Wrapping: when the value would exceed an
implementation-defined ceiling (at least 2^31 - 1), it resets to 1." -/
structure Counter where
  min : Nat := 1
  max : Nat := 2147483647
  last : Nat := 0
deriving DecidableEq, Repr

/-- Counter.getNext(): the next value (wrapping to `min` past the ceiling),
advancing the counter. -/
def Counter.getNext (c : Counter) : Nat × Counter :=
  let v := if c.max ≤ c.last then c.min else c.last + 1
  (v, { c with last := v })

/-- Counter.getNext(peek=true): the value the next `getNext()` would return,
without advancing. -/
def Counter.peek (c : Counter) : Nat :=
  if c.max ≤ c.last then c.min else c.last + 1

/-- Which side the connection belongs to (`side: 'server' | 'client'`). -/
inductive Side
  | server
  | client
deriving DecidableEq, Repr

/-- Name used in log and error texts (BaseConnection.ts 44-46). -/
def connNameOf : Side → String
  | .server => "connection"
  | .client => "client"

/-- The `this._heartbeat` bundle (BaseConnection.ts 1072-1077); the two timer
handles are modelled as armed-flags. -/
structure HeartbeatState where
  sn : Counter := {}
  sendTimerArmed : Bool := false
  recvTimeoutArmed : Bool := false
  lastSendTime : Nat := 0
deriving DecidableEq, Repr

/-- Slice of the BaseConnection state that `_disconnect` reads and writes:
`side`, `_status`, whether `_disconnecting` holds an in-flight promise,
`_pendingCallApis` and `_heartbeat`. -/
structure ConnState (β : Type) where
  side : Side
  status : ConnectionStatus
  hasDisconnecting : Bool := false
  pendingCallApis : PendingMap β := []
  heartbeat : Option HeartbeatState := none
deriving DecidableEq, Repr

/-- What `_disconnect` hands back to its caller: the shared in-flight
`_disconnecting` promise, or a fresh OpResult. -/
inductive DisconnectOutcome
  | sharedInflight
  | ret (r : OpResultVoid)
deriving DecidableEq, Repr

/-- The typed rejection message of `_disconnect` (BaseConnection.ts 86-89). -/
def disconnectErrMsg (side : Side) (status : ConnectionStatus) : String :=
  "You can only call \"disconnect\" if the " ++ connNameOf side ++
    " status is \"Connected\" (the current status is \"" ++ status.toStr ++ "\")"

/-- The LOST_CONN error given to every pending call (BaseConnection.ts 98-104). -/
def lostConnError (reason : Option String) : TsrpcError :=
  { message := "Disconnected to server" ++
      (match reason with
        | some r => ", reason: " ++ r
        | none => ""),
    type := .NetworkError,
    code := some "LOST_CONN" }

/-- The `onReturn` invocations performed by
`this._pendingCallApis.forEach((v) => v.onReturn?.(... LOST_CONN ...))`
(BaseConnection.ts 97-105), in map order; items without an installed
`onReturn` are skipped by the `?.` call. -/
def lostConnEvents {β : Type} (pending : PendingMap β) (reason : Option String) :
    List (TraceEvent β) :=
  pending.filterMap (fun v =>
    if v.hasOnReturn then some (.invokeOnReturn v.sn (.err (lostConnError reason)))
    else none)

/-- Embedding of `_disconnect(isManual, reason)` (BaseConnection.ts 74-156):
an in-flight `_disconnecting` is returned as-is; from `Disconnected` the call is
a successful no-op; from any other non-`Connected` status it fails with the
typed message; from `Connected` the status moves to `Disconnecting` and the
closure runs: stop heartbeat, fail every pending call with LOST_CONN (each
`onReturn` closure also deletes its item), run `_doDisconnect` (3 s bound),
set `Disconnected`, then run the `postDisconnect` flow. -/
def disconnect {β : Type} (st : ConnState β) (isManual : Bool) (reason : Option String) :
    DisconnectOutcome × ConnState β × List (TraceEvent β) :=
  if st.hasDisconnecting then (.sharedInflight, st, [])
  else if st.status = .Disconnected then (.ret .succ, st, [])
  else if st.status ≠ .Connected then
    (.ret (.fail (disconnectErrMsg st.side st.status)), st, [])
  else
    (.ret .succ,
      { st with
        status := .Disconnected,
        hasDisconnecting := false,
        pendingCallApis := st.pendingCallApis.filter (fun v => !v.hasOnReturn),
        heartbeat := none },
      .stopHeartbeat :: lostConnEvents st.pendingCallApis reason ++
        [.doDisconnect isManual reason, .postDisconnectFlow isManual reason])

/-! Lemmas about `lostConnEvents`. -/

theorem returnsFor_lostConnEvents_not_mem {β : Type} {pending : PendingMap β} {sn : Nat}
    (h : sn ∉ mapKeys pending) (reason : Option String) :
    returnsFor sn (lostConnEvents pending reason) = [] := by
  induction pending with
  | nil => rfl
  | cons v rest ih =>
    simp only [mapKeys, List.map_cons, List.mem_cons, not_or] at h
    have hv : ¬v.sn = sn := fun he => h.1 he.symm
    have htail := ih (by simpa [mapKeys] using h.2)
    by_cases hr : v.hasOnReturn
    · simpa [lostConnEvents, returnsFor, List.filterMap_cons, hr, hv] using htail
    · simpa [lostConnEvents, returnsFor, List.filterMap_cons, hr] using htail

theorem returnsFor_lostConnEvents_mem {β : Type} {pending : PendingMap β}
    {item : PendingCallApiItem β}
    (hnd : (mapKeys pending).Nodup) (hmem : item ∈ pending) (hr : item.hasOnReturn = true)
    (reason : Option String) :
    returnsFor item.sn (lostConnEvents pending reason) =
      [ApiReturn.err (lostConnError reason)] := by
  induction pending with
  | nil => cases hmem
  | cons v rest ih =>
    simp only [mapKeys, List.map_cons, List.nodup_cons] at hnd
    rcases List.mem_cons.mp hmem with hv | hrest
    · subst hv
      have htail := returnsFor_lostConnEvents_not_mem (by simpa [mapKeys] using hnd.1) reason
      simpa [lostConnEvents, returnsFor, List.filterMap_cons, hr] using htail
    · have hvsn : ¬v.sn = item.sn := fun he =>
        hnd.1 (he ▸ List.mem_map_of_mem (·.sn) hrest)
      have htail := ih (by simpa [mapKeys] using hnd.2) hrest
      by_cases hvr : v.hasOnReturn
      · simpa [lostConnEvents, returnsFor, List.filterMap_cons, hvr, hvsn] using htail
      · simpa [lostConnEvents, returnsFor, List.filterMap_cons, hvr] using htail

/-! Claim theorems on `_disconnect`. -/

/-- Claim C2: when the connection enters Disconnecting, every call pending at
that moment (with its `_waitApiReturn` resolver installed) receives exactly one
ApiReturn, namely the NetworkError/LOST_CONN failure, and it is delivered
strictly before the `postDisconnect` flow runs (the flow is the final event of
the disconnect sequence; all returns happen in the prefix before it). -/
theorem c2_disconnect_fails_pending_before_postDisconnect {β : Type}
    (st : ConnState β) (isManual : Bool) (reason : Option String)
    (item : PendingCallApiItem β)
    (hconn : st.status = .Connected)
    (hnofut : st.hasDisconnecting = false)
    (hnd : (mapKeys st.pendingCallApis).Nodup)
    (hmem : item ∈ st.pendingCallApis)
    (hr : item.hasOnReturn = true) :
    ∃ pre, (disconnect st isManual reason).2.2 =
        pre ++ [TraceEvent.postDisconnectFlow isManual reason] ∧
      returnsFor item.sn pre = [ApiReturn.err (lostConnError reason)] := by
  refine ⟨.stopHeartbeat :: lostConnEvents st.pendingCallApis reason ++
    [.doDisconnect isManual reason], ?_, ?_⟩
  · simp [disconnect, hconn, hnofut]
  · have := returnsFor_lostConnEvents_mem hnd hmem hr reason
    simpa [returnsFor, List.filterMap_cons, List.filterMap_append] using this

/-- Witness for C2: a Connected connection with one pending call (sn 7) holding
its resolver; disconnect delivers exactly one LOST_CONN return before the
postDisconnect flow event. -/
theorem c2_disconnect_fails_pending_before_postDisconnect_witness :
    ∃ pre, (disconnect
        (⟨.client, .Connected, false, [⟨7, "Echo", (), false, none, false, true⟩], none⟩ :
          ConnState Unit) true (some "bye")).2.2 =
        pre ++ [TraceEvent.postDisconnectFlow true (some "bye")] ∧
      returnsFor 7 pre = [ApiReturn.err (lostConnError (some "bye"))] :=
  c2_disconnect_fails_pending_before_postDisconnect
    (⟨.client, .Connected, false, [⟨7, "Echo", (), false, none, false, true⟩], none⟩ :
      ConnState Unit) true (some "bye")
    ⟨7, "Echo", (), false, none, false, true⟩ rfl rfl (by decide) (by decide) rfl

/-- Claim C8: `disconnect` from `Disconnected` succeeds as a no-op; from
`Connecting` or `Disconnecting` it fails with the typed message; from
`Connected` it proceeds (the run ends Disconnected, with the postDisconnect
flow event in its trace); and whenever an earlier disconnect is still in
flight, the caller receives that same in-flight future. -/
theorem c8_disconnect_status_semantics {β : Type} (side : Side)
    (pending : PendingMap β) (hb : Option HeartbeatState)
    (isManual : Bool) (reason : Option String) :
    disconnect (⟨side, .Disconnected, false, pending, hb⟩ : ConnState β) isManual reason =
      (.ret .succ, ⟨side, .Disconnected, false, pending, hb⟩, []) ∧
    disconnect (⟨side, .Connecting, false, pending, hb⟩ : ConnState β) isManual reason =
      (.ret (.fail (disconnectErrMsg side .Connecting)),
        ⟨side, .Connecting, false, pending, hb⟩, []) ∧
    disconnect (⟨side, .Disconnecting, false, pending, hb⟩ : ConnState β) isManual reason =
      (.ret (.fail (disconnectErrMsg side .Disconnecting)),
        ⟨side, .Disconnecting, false, pending, hb⟩, []) ∧
    (∀ s : ConnectionStatus,
      disconnect (⟨side, s, true, pending, hb⟩ : ConnState β) isManual reason =
        (.sharedInflight, ⟨side, s, true, pending, hb⟩, [])) ∧
    ((disconnect (⟨side, .Connected, false, pending, hb⟩ : ConnState β) isManual reason).1 =
        .ret .succ ∧
      (disconnect (⟨side, .Connected, false, pending, hb⟩ : ConnState β)
        isManual reason).2.1.status = .Disconnected ∧
      TraceEvent.postDisconnectFlow isManual reason ∈
        (disconnect (⟨side, .Connected, false, pending, hb⟩ : ConnState β) isManual reason).2.2) := by
  refine ⟨by simp [disconnect], by simp [disconnect, disconnectErrMsg],
    by simp [disconnect, disconnectErrMsg], fun s => by simp [disconnect],
    by simp [disconnect], by simp [disconnect], ?_⟩
  simp [disconnect]

/-! Heartbeat subsystem (claim C3). -/

/-- Heartbeat-related options (BaseConnectionOptions, BaseConnection.ts
1237-1256): "heartbeatSendInterval: ... `0` represent not send heartbeat
request. At least 1 end needs to send a heartbeat between the local and the
remote." -/
structure HeartbeatOptions where
  heartbeat : Bool
  heartbeatSendInterval : Nat
  heartbeatRecvTimeout : Nat
deriving DecidableEq, Repr

/-- Observable heartbeat actions. -/
inductive HbEvent
  | sendPing (sn : Nat)
  | sendPong (sn : Nat)
  | armRecvTimeout (ms : Nat)
  | armSendTimer (ms : Nat)
deriving DecidableEq, Repr

/-- Embedding of `_sendHeartbeat` (BaseConnection.ts 1109-1119): a no-op when
`this._heartbeat` is undefined; otherwise records the send time and sends
`heartbeat(sn.getNext())`. -/
def sendHeartbeat (now : Nat) (hb : Option HeartbeatState) :
    Option HeartbeatState × List HbEvent :=
  match hb with
  | none => (none, [])
  | some h =>
    let p := h.sn.getNext
    (some { h with lastSendTime := now, sn := p.2 }, [.sendPing p.1])

/-- Embedding of `_startHeartbeat` (BaseConnection.ts 1079-1095): returns when
`this._heartbeat` already exists; `this._heartbeat` is created ONLY inside
`if (this.options.heartbeatSendInterval)` (so interval 0 leaves it undefined)
followed by `_sendHeartbeat()`; then `_resetHeartbeatTimeout()` runs, which is
itself a no-op when `this._heartbeat` is undefined (1152-1166). -/
def startHeartbeat (opts : HeartbeatOptions) (now : Nat) (hb : Option HeartbeatState) :
    Option HeartbeatState × List HbEvent :=
  if hb.isSome then (hb, [])
  else
    let s1 : Option HeartbeatState × List HbEvent :=
      if opts.heartbeatSendInterval ≠ 0 then sendHeartbeat now (some {})
      else (none, [])
    match s1.1 with
    | none => (none, s1.2)
    | some h1 =>
      (some { h1 with recvTimeoutArmed := true },
        s1.2 ++ [.armRecvTimeout opts.heartbeatRecvTimeout])

/-- Status-setter behavior on entering Connected (BaseConnection.ts 66-70):
`this.options.heartbeat && this._startHeartbeat()`. -/
def onEnterConnected (opts : HeartbeatOptions) (now : Nat) (hb : Option HeartbeatState) :
    Option HeartbeatState × List HbEvent :=
  if opts.heartbeat then startHeartbeat opts now hb else (hb, [])

/-- Embedding of `_recvHeartbeat` (BaseConnection.ts 1121-1150): with
`this._heartbeat` undefined it returns immediately; otherwise the receive
idle-timeout is re-armed; a pong updates `lastHeartbeatLatency` and (for a
non-zero interval) re-arms the send timer; a ping is answered with the same
envelope with `isReply: true`. Result: new heartbeat state, emitted actions,
and the value of `lastHeartbeatLatency`. -/
def recvHeartbeat (opts : HeartbeatOptions) (now lastLatency : Nat)
    (hb : Option HeartbeatState) (sn : Nat) (isReply : Bool) :
    Option HeartbeatState × List HbEvent × Nat :=
  match hb with
  | none => (none, [], lastLatency)
  | some h =>
    let h1 := { h with recvTimeoutArmed := true }
    let evReset : List HbEvent := [.armRecvTimeout opts.heartbeatRecvTimeout]
    if isReply then
      let latency := now - h1.lastSendTime
      if opts.heartbeatSendInterval ≠ 0 then
        (some { h1 with sendTimerArmed := true },
          evReset ++ [.armSendTimer opts.heartbeatSendInterval], latency)
      else (some h1, evReset, latency)
    else
      (some h1, evReset ++ [.sendPong sn], lastLatency)

/-- Claim C3 (code bug): with heartbeat enabled and `heartbeatSendInterval = 0`
(receive-only mode), entering Connected creates no `_heartbeat` state, so no
receive idle-timeout is ever armed, and an inbound ping is dropped without any
pong. With a non-zero interval, both the idle-timeout and the pong reply are
present, which is what the claim (and the option documentation, "at least 1 end
needs to send a heartbeat") expects of the receive-only mode as well. -/
theorem c3_receive_only_mode_is_inert :
    onEnterConnected ⟨true, 0, 5000⟩ 0 none = (none, []) ∧
    recvHeartbeat ⟨true, 0, 5000⟩ 100 0 (onEnterConnected ⟨true, 0, 5000⟩ 0 none).1 1 false =
      (none, [], 0) ∧
    HbEvent.armRecvTimeout 5000 ∈ (onEnterConnected ⟨true, 1000, 5000⟩ 0 none).2 ∧
    HbEvent.sendPong 1 ∈
      (recvHeartbeat ⟨true, 1000, 5000⟩ 100 0
        (onEnterConnected ⟨true, 1000, 5000⟩ 0 none).1 1 false).2.1 := by
  refine ⟨rfl, rfl, ?_, ?_⟩ <;> decide

/-! Transport pipeline guards (claims C7 and C9). -/

/-- Collaborators of the outbound pipeline, abstracted: the codec
(`TransportDataUtil.encodeBody*` / `encodeBox*`), the `preSendData` flow (user
middleware — it may cancel by returning null, and because its execution is a
suspension point the connection status observed after it may differ from the
one before, e.g. when a middleware disconnects), the transport `_sendData`, and
the subclass-provided `_errConnNotConnected()` message. -/
structure SendPipeline (β : Type) where
  errConnNotConnected : String
  encodeBody : TransportData β → OpResult String
  encodeBox : String → OpResult String
  preSendDataFlow : String → Option String × ConnectionStatus
  sendData : String → OpResultVoid

/-- Result of an async pipeline entry point: an OpResult, or the shared
never-settling PROMISE_ABORTED. -/
inductive SendResult
  | result (r : OpResultVoid)
  | promiseAborted
deriving DecidableEq, Repr

/-- Observable steps of the outbound pipeline. -/
inductive SendEvent
  | encodedBody
  | encodedBox
  | ranPreSendDataFlow
  | handedToSendData (data : String)
deriving DecidableEq, Repr

/-- Embedding of `_sendBox` (BaseConnection.ts 730-793): encode the box, run
the `preSendData` flow, then RE-CHECK `this.status !== Connected` before
handing the raw data to `_sendData`; a non-Connected status at that point
yields `_errConnNotConnected()` instead of a send. -/
def sendBox {β : Type} (p : SendPipeline β) (box : String) : SendResult × List SendEvent :=
  match p.encodeBox box with
  | .fail e => (.result (.fail e), [.encodedBox])
  | .succ data =>
    match p.preSendDataFlow data with
    | (none, _) => (.promiseAborted, [.encodedBox, .ranPreSendDataFlow])
    | (some d2, status2) =>
      if status2 ≠ .Connected then
        (.result (.fail p.errConnNotConnected), [.encodedBox, .ranPreSendDataFlow])
      else
        (.result (p.sendData d2), [.encodedBox, .ranPreSendDataFlow, .handedToSendData d2])

/-- Embedding of `_sendTransportData` (BaseConnection.ts 687-728): when
`this.status !== Connected` it fails with `_errConnNotConnected()` before
anything is encoded; otherwise the body is encoded and `_sendBox` continues. -/
def sendTransportData {β : Type} (p : SendPipeline β) (status : ConnectionStatus)
    (td : TransportData β) : SendResult × List SendEvent :=
  if status ≠ .Connected then (.result (.fail p.errConnNotConnected), [])
  else
    match p.encodeBody td with
    | .fail e => (.result (.fail e), [.encodedBody])
    | .succ box =>
      let r := sendBox p box
      (r.1, .encodedBody :: r.2)

/-- Collaborators of the inbound pipeline: the `preRecvData` flow (may cancel,
or supply an already-decoded TransportData via `pre.decodedData`) and the box
plus body decoding, collapsed to one abstract decode step. -/
structure RecvPipeline (β : Type) where
  preRecvDataFlow : String → Option (String × Option (TransportData β))
  decodeBox : String → OpResult (TransportData β)

/-- Observable steps of the inbound pipeline. -/
inductive RecvEvent (β : Type)
  | ranPreRecvDataFlow
  | decodedBox
  | sentErrSn0 (errMsg : String)
  | dispatched (td : TransportData β)
deriving DecidableEq, Repr

/-- Embedding of `_recvData` (BaseConnection.ts 854-935): inbound data is
ignored while the status is not Connected (the function returns the
PROMISE_ABORTED sentinel); otherwise the `preRecvData` flow runs, then decoding
and dispatch; a decode failure is answered with an outbound `err` with sn 0. -/
def recvData {β : Type} (q : RecvPipeline β) (status : ConnectionStatus) (data : String) :
    SendResult × List (RecvEvent β) :=
  if status ≠ .Connected then (.promiseAborted, [])
  else
    match q.preRecvDataFlow data with
    | none => (.promiseAborted, [.ranPreRecvDataFlow])
    | some (_, some td) => (.result .succ, [.ranPreRecvDataFlow, .dispatched td])
    | some (d2, none) =>
      match q.decodeBox d2 with
      | .fail e => (.result (.fail e), [.ranPreRecvDataFlow, .decodedBox, .sentErrSn0 e])
      | .succ td => (.result .succ, [.ranPreRecvDataFlow, .decodedBox, .dispatched td])

/-- Claim C7: while the status is not Connected, `_sendTransportData` returns
the local connection-not-connected failure without encoding or sending anything
(empty event trace) and `_recvData` returns without decoding or dispatching
anything (empty event trace). -/
theorem c7_not_connected_blocks_send_and_recv {β : Type} (p : SendPipeline β)
    (q : RecvPipeline β) (status : ConnectionStatus) (td : TransportData β)
    (data : String) (h : status ≠ .Connected) :
    sendTransportData p status td = (.result (.fail p.errConnNotConnected), []) ∧
    recvData q status data = (.promiseAborted, []) := by
  constructor <;> simp [sendTransportData, recvData, h]

/-- Witness for C7 at status Disconnected with concrete collaborators. -/
theorem c7_not_connected_blocks_send_and_recv_witness :
    sendTransportData
      (⟨"not connected", fun _ => .succ "body", fun s => .succ s,
        fun s => (some s, .Connected), fun _ => .succ⟩ : SendPipeline Unit)
      .Disconnected (.msg "Chat" ()) = (.result (.fail "not connected"), []) ∧
    recvData
      (⟨fun s => some (s, none), fun _ => .succ (.msg "Chat" ())⟩ : RecvPipeline Unit)
      .Disconnected "raw" = (.promiseAborted, []) :=
  c7_not_connected_blocks_send_and_recv
    (⟨"not connected", fun _ => .succ "body", fun s => .succ s,
      fun s => (some s, .Connected), fun _ => .succ⟩ : SendPipeline Unit)
    (⟨fun s => some (s, none), fun _ => .succ (.msg "Chat" ())⟩ : RecvPipeline Unit)
    .Disconnected (.msg "Chat" ()) "raw" (by decide)

/-- Claim C9: raw data reaches `_sendData` only when the status observed after
the `preSendData` flow is Connected; when the flow's suspension ends with a
non-Connected status, `_sendBox` returns the connection-not-connected failure
instead of sending — even though the pipeline started while Connected. -/
theorem c9_sendBox_rechecks_status_after_flow {β : Type} (p : SendPipeline β)
    (box : String) :
    (∀ d, SendEvent.handedToSendData d ∈ (sendBox p box).2 →
      ∃ data d2, p.encodeBox box = .succ data ∧
        p.preSendDataFlow data = (some d2, .Connected)) ∧
    (∀ data d2 s2, p.encodeBox box = .succ data →
      p.preSendDataFlow data = (some d2, s2) → s2 ≠ .Connected →
      sendBox p box = (.result (.fail p.errConnNotConnected),
        [.encodedBox, .ranPreSendDataFlow])) := by
  constructor
  · intro d hd
    cases henc : p.encodeBox box with
    | fail e => simp [sendBox, henc] at hd
    | succ data =>
      cases hflow : p.preSendDataFlow data with
      | mk opt s2 =>
        cases opt with
        | none => simp [sendBox, henc, hflow] at hd
        | some d2 =>
          by_cases hs : s2 = .Connected
          · subst hs
            exact ⟨data, d2, rfl, hflow⟩
          · simp [sendBox, henc, hflow, hs] at hd
  · intro data d2 s2 henc hflow hs
    simp [sendBox, henc, hflow, hs]

/-- Witness for C9: a flow middleware that disconnects (the post-flow status is
Disconnecting) causes `_sendBox` to fail with the not-connected error and emit
no send. -/
theorem c9_sendBox_rechecks_status_after_flow_witness :
    sendBox
      (⟨"not connected", fun _ => .succ "body", fun s => .succ s,
        fun s => (some s, .Disconnecting), fun _ => .succ⟩ : SendPipeline Unit)
      "box" = (.result (.fail "not connected"), [.encodedBox, .ranPreSendDataFlow]) :=
  (c9_sendBox_rechecks_status_after_flow
    (⟨"not connected", fun _ => .succ "body", fun s => .succ s,
      fun s => (some s, .Disconnecting), fun _ => .succ⟩ : SendPipeline Unit)
    "box").2 "box" "box" .Disconnecting rfl rfl (by decide)

/-! Sequence-number assignment in `callApi` and `_doCallApi` (claim C1). -/

/-- Step 1 of `callApi` (BaseConnection.ts 214-232): `sn =
this._callApiSn.getNext()`, build the PendingCallApiItem carrying that sn, and
register it in `_pendingCallApis`. Returns the advanced counter, the item, and
the updated map. -/
def callApiRegister {β : Type} (callApiSn : Counter) (apiName : String) (req : β)
    (abortKey : Option String) (m : PendingMap β) :
    Counter × PendingCallApiItem β × PendingMap β :=
  let p := callApiSn.getNext
  let pendingItem : PendingCallApiItem β :=
    { sn := p.1, apiName := apiName, req := req, abortKey := abortKey }
  (p.2, pendingItem, mapSet m pendingItem)

/-- TransportData built by `_doCallApi` (tsrpc-base BaseConnection.ts 314-324):
`sn: pendingItem.sn`; the local ProtoInfo is attached iff the remote one is
unknown. -/
def doCallApiTransportData {β : Type} (serviceName : String) (req : β)
    (pendingItem : PendingCallApiItem β) (remoteProtoInfo : Option ProtoInfo)
    (localProtoInfo : ProtoInfo) : TransportData β :=
  .req serviceName pendingItem.sn req
    (if remoteProtoInfo.isNone then some localProtoInfo else none)

/-- TransportData built by `_doCallApi` in the legacy variant
(src/unnamed/part_000 lines 141-152): `sn: this._nextSn`, where the getter
`_nextSn` is `this._callApiSn.getNext(true)` — a peek at the NEXT counter
value, taken from the counter state left after `callApi` already consumed
`pendingItem.sn`. -/
def legacyDoCallApiTransportData {β : Type} (serviceName : String) (req : β)
    (callApiSn : Counter) (remoteProtoInfo : Option ProtoInfo)
    (localProtoInfo : ProtoInfo) : TransportData β :=
  .req serviceName callApiSn.peek req
    (if remoteProtoInfo.isNone then some localProtoInfo else none)

/-- Claim C1 (code bug in the legacy variant): in tsrpc-base, `_doCallApi`
builds the outbound req with exactly `pendingItem.sn`, as the claim states; in
the legacy variant the req instead carries the peeked next counter value — on
the very first call the registered PendingCall has sn 1 while the outbound req
carries sn 2, so the matching `res`/`err` (which echoes the outbound sn) can
never resolve the registered pending call. -/
theorem c1_outbound_req_carries_pending_sn {β : Type} :
    (∀ (serviceName : String) (req : β) (item : PendingCallApiItem β)
        (rp : Option ProtoInfo) (lp : ProtoInfo),
      (doCallApiTransportData serviceName req item rp lp).snOf = some item.sn) ∧
    (callApiRegister ({} : Counter) "Test" () none []).2.1.sn = 1 ∧
    (legacyDoCallApiTransportData "Test" ()
        (callApiRegister ({} : Counter) "Test" () none []).1
        none ⟨"m", 0, "4.0.0", none⟩).snOf = some 2 := by
  refine ⟨fun s r item rp lp => rfl, ?_, ?_⟩ <;> decide

/-! Handler registration (claim C10; src/unnamed/part_000 lines 294-300). -/

/-- The `_apiHandlers` record, keyed by api name, handlers kept abstract. -/
abbrev ApiHandlers (H : Type) := List (String × H)

/-- Record lookup `this._apiHandlers[apiName]`. -/
def handlersGet {H : Type} (hs : ApiHandlers H) (apiName : String) : Option H :=
  (hs.find? (fun kv => kv.1 == apiName)).map (·.2)

/-- Embedding of `implementApi(apiName, handler)`: an already-registered
(truthy) handler raises `Error('implementApi duplicately for: ' + apiName)`;
otherwise the handler is stored under `apiName`. -/
def implementApi {H : Type} (hs : ApiHandlers H) (apiName : String) (handler : H) :
    Except String (ApiHandlers H) :=
  if (handlersGet hs apiName).isSome then
    .error ("implementApi duplicately for: " ++ apiName)
  else
    .ok (hs ++ [(apiName, handler)])

theorem find?_append_or {α : Type} (p : α → Bool) (l1 l2 : List α) :
    (l1 ++ l2).find? p = (l1.find? p).or (l2.find? p) := by
  induction l1 with
  | nil => simp
  | cons a l1 ih =>
    cases hpa : p a <;> simp [List.find?_cons, hpa, ih]

/-- Claim C10: `implementApi` throws for an apiName that already has a handler
and otherwise registers the handler; a registration that succeeds proves no
handler existed before, so an existing handler is never silently replaced. -/
theorem c10_implementApi_never_replaces {H : Type} (hs : ApiHandlers H)
    (apiName : String) (handler : H) :
    ((handlersGet hs apiName).isSome = true →
      implementApi hs apiName handler =
        .error ("implementApi duplicately for: " ++ apiName)) ∧
    (handlersGet hs apiName = none →
      implementApi hs apiName handler = .ok (hs ++ [(apiName, handler)]) ∧
      handlersGet (hs ++ [(apiName, handler)]) apiName = some handler ∧
      ∀ other, other ≠ apiName →
        handlersGet (hs ++ [(apiName, handler)]) other = handlersGet hs other) ∧
    (∀ hs2, implementApi hs apiName handler = .ok hs2 →
      handlersGet hs apiName = none) := by
  refine ⟨?_, ?_, ?_⟩
  · intro h
    simp [implementApi, h]
  · intro h
    have hfind : hs.find? (fun kv => kv.1 == apiName) = none := by
      simpa [handlersGet] using h
    refine ⟨by simp [implementApi, h], ?_, ?_⟩
    · simp [handlersGet, find?_append_or, hfind, List.find?]
    · intro other hne
      have hbeq : ((apiName, handler).1 == other) = false := by
        simp only [beq_eq_false_iff_ne, ne_eq]
        exact fun he => hne he.symm
      have hone : ([(apiName, handler)] : ApiHandlers H).find?
          (fun kv => kv.1 == other) = none := by
        simp [List.find?, hbeq]
      simp [handlersGet, find?_append_or, hone]
  · intro hs2 hok
    cases hsome : handlersGet hs apiName with
    | none => rfl
    | some h0 =>
      simp [implementApi, hsome] at hok

/-- Witness for C10: registering "Echo" twice fails with the duplicate error
and leaves no trace of a replacement; registering into an empty record stores
the handler retrievably. -/
theorem c10_implementApi_never_replaces_witness :
    implementApi ([("Echo", 0)] : ApiHandlers Nat) "Echo" 1 =
      .error ("implementApi duplicately for: " ++ "Echo") ∧
    implementApi ([] : ApiHandlers Nat) "Echo" 1 = .ok ([] ++ [("Echo", 1)]) ∧
    handlersGet ([] ++ [("Echo", 1)] : ApiHandlers Nat) "Echo" = some 1 := by
  have h1 := (c10_implementApi_never_replaces ([("Echo", 0)] : ApiHandlers Nat)
    "Echo" 1).1 (by decide)
  have h2 := (c10_implementApi_never_replaces ([] : ApiHandlers Nat) "Echo" 1).2.1 rfl
  exact ⟨h1, h2.1, h2.2.1⟩

end Tsrpc
